import Mathlib

/-!
Shallow embedding of the AI-Powered-Marketing-Workflow repository
(src/chain.py and src/acp_crew.py): context dictionaries and their merge,
the prompt builders, the stage-response validation, the sequential
orchestrator `run_marketing_workflow` of chain.py, and the discovery-mode
orchestrator of acp_crew.py, together with theorems settling the frozen
claims about them.

Python dictionaries with string keys are modelled as functions
`String → Option CtxVal`; remote stage endpoints as functions from the
prompt text to an `Except` of the response envelope (`Except.error`
models a raised transport exception, an empty envelope models a
successful call with no usable content); the filesystem as a map from
path to content plus a list of created directories; raised Python
exceptions as `Except.error` carrying the exception message.
-/

/-- A value stored in a context dictionary: the repository's contexts hold
either a string or a list of strings (the `key_benefits` field). -/
inductive CtxVal where
  | str : String → CtxVal
  | strList : List String → CtxVal
  deriving DecidableEq

/-- A Python dict with string keys, as a lookup function. -/
def Context : Type := String → Option CtxVal

/-- The empty dict `{}`. -/
def emptyDict : Context := fun _ => none

/-- `MarketingWorkflowConfig.DEFAULT_CONTEXT` of src/chain.py lines 19-30
(identical in src/acp_crew.py lines 28-39). -/
def DEFAULT_CONTEXT : Context := fun k =>
  if k = "company_type" then some (.str "AI startup")
  else if k = "industry" then some (.str "Marketing Technology")
  else if k = "target_audience" then
    some (.str "Marketing professionals, business owners, and growth teams")
  else if k = "value_proposition" then
    some (.str "AI-powered marketing optimization and content creation")
  else if k = "key_benefits" then
    some (.strList ["Automated content generation", "SEO optimization",
      "Audience targeting", "Performance analytics"])
  else none

/-- Python dict merge `{**d, **c}`: per key, `c` wins when it has the key,
otherwise `d`'s entry is used. -/
def mergeDict (d c : Context) : Context := fun k =>
  match c k with
  | some v => some v
  | none => d k

/-- `context = {**config.DEFAULT_CONTEXT, **(company_context or {})}`
(src/chain.py line 47, src/acp_crew.py line 57). -/
def mergedContext (company_context : Option Context) : Context :=
  mergeDict DEFAULT_CONTEXT (company_context.getD emptyDict)

/-- Python subscript `context[k]`: raises `KeyError(k)` when the key is
absent, modelled as `Except.error k`. -/
def dictGet (c : Context) (k : String) : Except String CtxVal :=
  match c k with
  | some v => Except.ok v
  | none => Except.error k

/-- The single-quote character, written via its code point to keep the
source free of quote-literal noise. -/
def pyQuote : String := String.singleton (Char.ofNat 39)

/-- Python `repr` of a string as it appears when a list of strings is
interpolated into an f-string: single-quoted, with backslash and the
quote character escaped (double-quoted when the string contains a single
quote but no double quote). Non-printable escapes are not modelled; no
claim exercises them. -/
def pyReprStr (s : String) : String :=
  if s.contains (Char.ofNat 39) ∧ ¬ s.contains (Char.ofNat 34) then
    "\x22" ++ (s.toList.map (fun ch =>
      if ch = Char.ofNat 92 then "\\\\" else String.singleton ch)).foldl (· ++ ·) "" ++ "\x22"
  else
    pyQuote ++ (s.toList.map (fun ch =>
      if ch = Char.ofNat 92 then "\\\\"
      else if ch = Char.ofNat 39 then "\\" ++ pyQuote
      else String.singleton ch)).foldl (· ++ ·) "" ++ pyQuote

/-- How a context value renders inside a Python f-string: a string renders
as itself, a list of strings as its Python `str()`/`repr`. -/
def pyFormat : CtxVal → String
  | .str s => s
  | .strList l => "[" ++ String.intercalate ", " (l.map pyReprStr) ++ "]"

/-- Python `sep.join(v)`: joins a list of strings with `sep`; a plain
string is an iterable of its characters, so it is joined character by
character. -/
def pyJoin (sep : String) : CtxVal → String
  | .strList l => String.intercalate sep l
  | .str s => String.intercalate sep (s.toList.map String.singleton)

/-- Python `specific_request or default`: the default is used when the
argument is `None` or falsy (for strings: empty). -/
def pyOrDefault (r : Option String) (d : String) : String :=
  match r with
  | none => d
  | some s => if s = "" then d else s

/-- The default request sentence of `create_planner_input`
(src/chain.py line 134). -/
def plannerDefaultRequest : String :=
  "Create a comprehensive marketing strategy to increase brand awareness and drive customer acquisition"

/-- The f-string body of `create_planner_input` (src/chain.py lines
124-160), before the final `.strip()`, as a function of the already
looked-up field renderings. -/
def plannerTemplate (company_type industry target_audience value_proposition benefits request : String) : String :=
  "\nCreate a comprehensive marketing strategy for " ++ company_type ++
  " in the " ++ industry ++ " industry.\n\nCOMPANY CONTEXT:\n- Company Type: " ++
  company_type ++ "\n- Industry: " ++ industry ++ "\n- Target Audience: " ++
  target_audience ++ "\n- Value Proposition: " ++ value_proposition ++
  "\n- Key Benefits: " ++ benefits ++ "\n\nSPECIFIC REQUEST: " ++ request ++
  "\n\nREQUIREMENTS:\n1. Research current marketing trends in the AI/tech industry\n" ++
  "2. Identify target audience segments and their pain points\n" ++
  "3. Develop a multi-channel marketing strategy\n4. Include specific tactics for:\n" ++
  "   - Content marketing\n   - Social media\n   - SEO optimization\n" ++
  "   - Lead generation\n   - Customer acquisition\n" ++
  "5. Provide measurable KPIs and success metrics\n" ++
  "6. Include budget allocation recommendations\n7. Timeline for implementation\n\n" ++
  "OUTPUT FORMAT:\n- Executive Summary\n- Market Analysis\n- Target Audience Analysis\n" ++
  "- Marketing Strategy Overview\n- Channel-Specific Tactics\n- Implementation Timeline\n" ++
  "- Budget Allocation\n- Success Metrics & KPIs\n- Risk Assessment\n"

/-- `create_planner_input` (src/chain.py lines 122-161): evaluates the
f-string field lookups in Python's left-to-right order (company_type,
industry, target_audience, value_proposition, key_benefits), raising
`KeyError` at the first absent key, then returns the stripped template. -/
def create_planner_input (context : Context) (specific_request : Option String) : Except String String :=
  match dictGet context "company_type" with
  | .error k => .error k
  | .ok company_type =>
    match dictGet context "industry" with
    | .error k => .error k
    | .ok industry =>
      match dictGet context "target_audience" with
      | .error k => .error k
      | .ok target_audience =>
        match dictGet context "value_proposition" with
        | .error k => .error k
        | .ok value_proposition =>
          match dictGet context "key_benefits" with
          | .error k => .error k
          | .ok key_benefits =>
            .ok ((plannerTemplate (pyFormat company_type) (pyFormat industry)
              (pyFormat target_audience) (pyFormat value_proposition)
              (pyJoin ", " key_benefits)
              (pyOrDefault specific_request plannerDefaultRequest)).trim)

/-- The f-string body of `create_writer_input` (src/chain.py lines
165-190); no `.strip()` is applied. -/
def writerTemplate (marketing_plan company_type industry target_audience : String) : String :=
  "\nWrite a compelling, SEO-optimized blog post based on the following marketing strategy.\n\n" ++
  "MARKETING STRATEGY:\n" ++ marketing_plan ++ "\n\nCOMPANY CONTEXT:\n- Company: " ++
  company_type ++ "\n- Industry: " ++ industry ++ "\n- Target Audience: " ++
  target_audience ++ "\n\nBLOG POST REQUIREMENTS:\n" ++
  "1. Create an engaging headline that includes relevant keywords\n" ++
  "2. Write a compelling introduction that hooks the reader\n" ++
  "3. Structure the content with clear headings and subheadings\n" ++
  "4. Include actionable insights and practical tips\n" ++
  "5. Optimize for SEO with relevant keywords naturally integrated\n" ++
  "6. Include a strong call-to-action\n7. Target length: 1000-1500 words\n" ++
  "8. Tone: Professional yet approachable\n" ++
  "9. Include relevant statistics and examples where appropriate\n\n" ++
  "IMPORTANT: Write the blog post in clean markdown format, ready-to-publish. " ++
  "Do NOT include labels like \x22SEO-Optimized Headline:\x22 or \x22Meta Description:\x22. \n" ++
  "Just write the actual blog post content with proper markdown formatting (headings, paragraphs, lists, etc.).\n" ++
  "Start directly with the main headline and content.\n"

/-- `create_writer_input` (src/chain.py lines 163-190): consults only
company_type, industry and target_audience, in that f-string order. -/
def create_writer_input (marketing_plan : String) (context : Context) : Except String String :=
  match dictGet context "company_type" with
  | .error k => .error k
  | .ok company_type =>
    match dictGet context "industry" with
    | .error k => .error k
    | .ok industry =>
      match dictGet context "target_audience" with
      | .error k => .error k
      | .ok target_audience =>
        .ok (writerTemplate marketing_plan (pyFormat company_type)
          (pyFormat industry) (pyFormat target_audience))

/-- The default request sentence of `format_input_for_acp_orchestrator`
(src/acp_crew.py line 104) — it ends with a period, unlike the planner
default. -/
def acpDefaultRequest : String :=
  "Create a comprehensive marketing strategy to increase brand awareness and drive customer acquisition."

/-- The f-string body of `format_input_for_acp_orchestrator`
(src/acp_crew.py lines 94-127), before the final `.strip()`. -/
def acpTemplate (company_type industry target_audience value_proposition benefits request : String) : String :=
  "\nCreate a marketing blog post for " ++ company_type ++ " in the " ++ industry ++
  " industry.\n\nCOMPANY CONTEXT:\n- Company Type: " ++ company_type ++
  "\n- Industry: " ++ industry ++ "\n- Target Audience: " ++ target_audience ++
  "\n- Value Proposition: " ++ value_proposition ++ "\n- Key Benefits: " ++ benefits ++
  "\n\nSPECIFIC REQUEST: " ++ request ++
  "\n\nREQUIREMENTS:\n- Research current marketing trends in the AI/tech industry.\n" ++
  "- Identify target audience segments and their pain points.\n" ++
  "- Develop a multi-channel marketing strategy.\n- Include specific tactics for:\n" ++
  "   - Content marketing\n   - Social media\n   - SEO optimization\n" ++
  "   - Lead generation\n   - Customer acquisition\n\n" ++
  "OUTPUT FORMAT:\n- Executive Summary\n- Market Analysis\n- Target Audience Analysis\n" ++
  "- Marketing Strategy Overview\n- Channel-Specific Tactics\n- Implementation Timeline\n" ++
  "- Budget Allocation\n- Success Metrics & KPIs\n- Risk Assessment\n"

/-- `format_input_for_acp_orchestrator` (src/acp_crew.py lines 90-128). -/
def format_input_for_acp_orchestrator (context : Context) (specific_request : Option String) : Except String String :=
  match dictGet context "company_type" with
  | .error k => .error k
  | .ok company_type =>
    match dictGet context "industry" with
    | .error k => .error k
    | .ok industry =>
      match dictGet context "target_audience" with
      | .error k => .error k
      | .ok target_audience =>
        match dictGet context "value_proposition" with
        | .error k => .error k
        | .ok value_proposition =>
          match dictGet context "key_benefits" with
          | .error k => .error k
          | .ok key_benefits =>
            .ok ((acpTemplate (pyFormat company_type) (pyFormat industry)
              (pyFormat target_audience) (pyFormat value_proposition)
              (pyJoin ", " key_benefits)
              (pyOrDefault specific_request acpDefaultRequest)).trim)

/-- A content part of a response message (acp_sdk `MessagePart`): carries
text content. -/
structure MessagePart where
  content : String
  deriving DecidableEq

/-- A response message (acp_sdk `Message`): a list of parts. -/
structure Message where
  parts : List MessagePart
  deriving DecidableEq

/-- The envelope returned by `run_sync`: a list of output messages. -/
structure RunResult where
  output : List Message
  deriving DecidableEq

/-- The response validation of src/chain.py lines 63-66 and 80-83:
`none` when the envelope has no output entries or the first entry has no
parts (`if not run.output or not run.output[0].parts`), otherwise the
text content of the first part of the first output entry. -/
def extractFirstText (r : RunResult) : Option String :=
  match r.output with
  | [] => none
  | m :: _ =>
    match m.parts with
    | [] => none
    | p :: _ => some p.content

/-- Convenience: a one-message, one-part envelope with the given text. -/
def mkResp (s : String) : RunResult := ⟨[⟨[⟨s⟩]⟩]⟩

/-- The filesystem and call-trace state a workflow run reads and writes:
files as a path-to-content map, the set of created directories, and the
ordered trace of (agent name, input text) stage invocations issued. -/
structure WorldState where
  fs : String → Option String
  dirs : List String
  calls : List (String × String)

/-- An initial world: empty filesystem, no directories, no calls. -/
def emptyWorld : WorldState := ⟨fun _ => none, [], []⟩

/-- `open(path, 'w')` followed by writes: replaces the file's content,
truncating any previous content at that path; other paths untouched. -/
def writeFile (fs : String → Option String) (path content : String) : String → Option String :=
  fun p => if p = path then some content else fs p

/-- `os.makedirs(d, exist_ok=True)`: idempotent directory creation. -/
def insertDir (dirs : List String) (d : String) : List String :=
  if d ∈ dirs then dirs else d :: dirs

/-- The header both output files start with after their title line
(src/chain.py lines 97-98 and 105-106): Company and Industry lines from
f-string lookups of the context, company_type first. -/
def fileHeader (context : Context) : Except String String :=
  match dictGet context "company_type" with
  | .error k => .error k
  | .ok company_type =>
    match dictGet context "industry" with
    | .error k => .error k
    | .ok industry =>
      .ok ("**Company:** " ++ pyFormat company_type ++ "\n**Industry:** " ++
        pyFormat industry ++ "\n\n")

/-- The dict returned by sequential-mode `run_marketing_workflow`
(src/chain.py lines 110-119). -/
structure WorkflowResult where
  marketing_plan : String
  blog_content : String
  context : Context
  status : String
  files : List (String × String)

/-- Path of the persisted marketing plan (src/chain.py line 94). -/
def planFilename : String := "marketing_outputs/marketing_plan.md"

/-- Path of the persisted blog post (src/chain.py line 102). -/
def blogFilename : String := "marketing_outputs/blog_post.md"

/-- Sequential-mode `run_marketing_workflow` (src/chain.py lines 32-119).

The two remote endpoints are parameters: `planner` is the response of
`run_sync(agent="marketing_planner", input=...)` on the planner client and
`writer` that of `run_sync(agent="supervisor_agent", input=...)` on the
writer client, each as a function of the input text; `Except.error`
models a raised transport exception. `canWrite` tells whether
`open(path, 'w')` succeeds for a path; a failed open raises, modelled as
`Except.error`. Every issued stage invocation is appended to the call
trace before its result is examined. The function returns the result of
the Python function (or the raised exception) together with the final
world state. -/
def run_marketing_workflow
    (planner writer : String → Except String RunResult)
    (canWrite : String → Bool)
    (company_context : Option Context) (specific_request : Option String)
    (w : WorldState) : Except String WorkflowResult × WorldState :=
  let context := mergedContext company_context
  match create_planner_input context specific_request with
  | .error k => (.error ("KeyError: " ++ k), w)
  | .ok planner_input =>
    let w1 : WorldState := { w with calls := w.calls ++ [("marketing_planner", planner_input)] }
    match planner planner_input with
    | .error e => (.error e, w1)
    | .ok run1 =>
      match extractFirstText run1 with
      | none => (.error "No output received from marketing planner", w1)
      | some marketing_plan =>
        match create_writer_input marketing_plan context with
        | .error k => (.error ("KeyError: " ++ k), w1)
        | .ok writer_input =>
          let w2 : WorldState := { w1 with calls := w1.calls ++ [("supervisor_agent", writer_input)] }
          match writer writer_input with
          | .error e => (.error e, w2)
          | .ok run2 =>
            match extractFirstText run2 with
            | none => (.error "No output received from blog writer", w2)
            | some blog_content =>
              let w3 : WorldState := { w2 with dirs := insertDir w2.dirs "marketing_outputs" }
              match fileHeader context with
              | .error k => (.error ("KeyError: " ++ k), w3)
              | .ok header =>
                if canWrite planFilename then
                  let w4 : WorldState := { w3 with
                    fs := writeFile w3.fs planFilename ("# Marketing Plan\n\n" ++ header ++ marketing_plan) }
                  if canWrite blogFilename then
                    let w5 : WorldState := { w4 with
                      fs := writeFile w4.fs blogFilename ("# Blog Post\n\n" ++ header ++ blog_content) }
                    (.ok { marketing_plan := marketing_plan, blog_content := blog_content,
                           context := context, status := "success",
                           files := [("marketing_plan", planFilename), ("blog_post", blogFilename)] }, w5)
                  else (.error ("PermissionError: " ++ blogFilename), w4)
                else (.error ("PermissionError: " ++ planFilename), w3)

/-- Discovery-mode `run_marketing_workflow` (src/acp_crew.py lines 41-87).

`agentRun` is the opaque calling agent: `acpagent.run(formatted_input)`
returning the single final text (or raising). Agent discovery and agent
construction have no data effect modelled here. The Python function has
no return statement, so on success it returns `None`, modelled as
`Except.ok none`: no `WorkflowResult` is produced. -/
def acp_run_marketing_workflow
    (agentRun : String → Except String String)
    (canWrite : String → Bool)
    (company_context : Option Context) (specific_request : Option String)
    (w : WorldState) : Except String (Option WorkflowResult) × WorldState :=
  let context := mergedContext company_context
  match format_input_for_acp_orchestrator context specific_request with
  | .error k => (.error ("KeyError: " ++ k), w)
  | .ok formatted_input =>
    match agentRun formatted_input with
    | .error e => (.error e, w)
    | .ok result =>
      let w1 : WorldState := { w with dirs := insertDir w.dirs "marketing_outputs" }
      match fileHeader context with
      | .error k => (.error ("KeyError: " ++ k), w1)
      | .ok header =>
        if canWrite blogFilename then
          let w2 : WorldState := { w1 with
            fs := writeFile w1.fs blogFilename (header ++ result) }
          (.ok none, w2)
        else (.error ("PermissionError: " ++ blogFilename), w1)

/-- The empty filesystem. -/
def emptyFs : String → Option String := fun _ => none

/-- A `canWrite` oracle under which every `open(path, 'w')` succeeds. -/
def alwaysWritable : String → Bool := fun _ => true

/-- A `canWrite` oracle under which every `open(path, 'w')` raises. -/
def neverWritable : String → Bool := fun _ => false

/-- A stage endpoint stub that answers every input with a one-message,
one-part envelope around the given text. -/
def constResp (s : String) : String → Except String RunResult := fun _ => .ok (mkResp s)

/-- A stage endpoint stub whose envelope has no output entries. -/
def emptyRespStub : String → Except String RunResult := fun _ => .ok ⟨[]⟩

/-- The merged context always has every key the defaults have: the merge
only ever overrides, never removes. -/
lemma mergedContext_isSome (cc : Option Context) (k : String)
    (h : (DEFAULT_CONTEXT k).isSome) : ∃ v, mergedContext cc k = some v := by
  cases hc : (cc.getD emptyDict) k with
  | some u => exact ⟨u, by simp [mergedContext, mergeDict, hc]⟩
  | none =>
    obtain ⟨v, hv⟩ := Option.isSome_iff_exists.mp h
    exact ⟨v, by simp [mergedContext, mergeDict, hc, hv]⟩

/-- Building the planner prompt from a merged context never raises: all
required keys are present. -/
lemma create_planner_input_merged_ok (cc : Option Context) (sr : Option String) :
    ∃ s, create_planner_input (mergedContext cc) sr = .ok s := by
  obtain ⟨v1, h1⟩ := mergedContext_isSome cc "company_type" (by decide)
  obtain ⟨v2, h2⟩ := mergedContext_isSome cc "industry" (by decide)
  obtain ⟨v3, h3⟩ := mergedContext_isSome cc "target_audience" (by decide)
  obtain ⟨v4, h4⟩ := mergedContext_isSome cc "value_proposition" (by decide)
  obtain ⟨v5, h5⟩ := mergedContext_isSome cc "key_benefits" (by decide)
  simp only [create_planner_input, dictGet, h1, h2, h3, h4, h5]
  exact ⟨_, rfl⟩

/-- Building the writer prompt from a merged context never raises. -/
lemma create_writer_input_merged_ok (mp : String) (cc : Option Context) :
    ∃ s, create_writer_input mp (mergedContext cc) = .ok s := by
  obtain ⟨v1, h1⟩ := mergedContext_isSome cc "company_type" (by decide)
  obtain ⟨v2, h2⟩ := mergedContext_isSome cc "industry" (by decide)
  obtain ⟨v3, h3⟩ := mergedContext_isSome cc "target_audience" (by decide)
  simp only [create_writer_input, dictGet, h1, h2, h3]
  exact ⟨_, rfl⟩

/-- The file header from a merged context never raises, and exposes the
rendered company_type and industry values. -/
lemma fileHeader_merged_ok (cc : Option Context) :
    ∃ ct ind, mergedContext cc "company_type" = some ct ∧
      mergedContext cc "industry" = some ind ∧
      fileHeader (mergedContext cc) =
        .ok ("**Company:** " ++ pyFormat ct ++ "\n**Industry:** " ++ pyFormat ind ++ "\n\n") := by
  obtain ⟨ct, h1⟩ := mergedContext_isSome cc "company_type" (by decide)
  obtain ⟨ind, h2⟩ := mergedContext_isSome cc "industry" (by decide)
  exact ⟨ct, ind, h1, h2, by simp [fileHeader, dictGet, h1, h2]⟩

/-- C6: for every stage invocation, a response envelope with no output
entries, or whose first output entry has no content parts, fails the
validation (the workflow raises its empty-output `ValueError`); otherwise
the text content of the first part of the first output entry is extracted
as the stage result. -/
theorem c6_response_validation (r : RunResult) :
    (r.output = [] → extractFirstText r = none) ∧
    (∀ m rest, r.output = m :: rest → m.parts = [] → extractFirstText r = none) ∧
    (∀ m rest p ps, r.output = m :: rest → m.parts = p :: ps →
      extractFirstText r = some p.content) := by
  obtain ⟨out⟩ := r
  refine ⟨?_, ?_, ?_⟩
  · intro h
    subst h
    rfl
  · intro m rest h hm
    subst h
    simp [extractFirstText, hm]
  · intro m rest p ps h hm
    subst h
    simp [extractFirstText, hm]

/-- Witness for C6 at concrete envelopes: the empty envelope fails
validation and a one-part envelope yields its text. -/
theorem c6_response_validation_witness :
    extractFirstText ⟨[]⟩ = none ∧ extractFirstText (mkResp "T") = some "T" :=
  ⟨(c6_response_validation ⟨[]⟩).1 rfl,
   (c6_response_validation (mkResp "T")).2.2 ⟨[⟨"T"⟩]⟩ [] ⟨"T"⟩ [] rfl rfl⟩

/-- The caller-supplied dict of the C7 example:
`company_context={"industry": "FinTech"}`. -/
def finTechContext : Context := fun k =>
  if k = "industry" then some (.str "FinTech") else none

/-- C7: the merged context is the defaults overridden key-by-key by the
caller's entries — caller wins per key, every other key keeps its default;
in particular `{"industry": "FinTech"}` yields industry = FinTech and all
other fields at their defaults. -/
theorem c7_shallow_merge_caller_wins :
    (∀ (cc : Context) (k : String) (v : CtxVal),
      cc k = some v → mergedContext (some cc) k = some v) ∧
    (∀ (cc : Context) (k : String),
      cc k = none → mergedContext (some cc) k = DEFAULT_CONTEXT k) ∧
    (mergedContext (some finTechContext) "industry" = some (.str "FinTech")) ∧
    (∀ k, k ≠ "industry" → mergedContext (some finTechContext) k = DEFAULT_CONTEXT k) := by
  refine ⟨?_, ?_, ?_, ?_⟩
  · intro cc k v h
    simp [mergedContext, mergeDict, h]
  · intro cc k h
    simp [mergedContext, mergeDict, h]
  · rfl
  · intro k hk
    simp [mergedContext, mergeDict, finTechContext, hk]

/-- Witness for C7: the example merge evaluated at `industry` (caller
wins), at `company_type` (default survives), and the two generic clauses
applied to the example dict. -/
theorem c7_shallow_merge_witness :
    mergedContext (some finTechContext) "industry" = some (.str "FinTech") ∧
    mergedContext (some finTechContext) "company_type" = some (.str "AI startup") ∧
    mergedContext (some finTechContext) "company_type" = DEFAULT_CONTEXT "company_type" := by
  refine ⟨c7_shallow_merge_caller_wins.2.2.1, ?_, ?_⟩
  · have h := c7_shallow_merge_caller_wins.2.2.2 "company_type" (by decide)
    simpa using h
  · exact c7_shallow_merge_caller_wins.2.2.2 "company_type" (by decide)

/-- C8: persisting the same path twice with different contents leaves
exactly the second content at that path, and every other path is exactly
as it was before either write — overwrite, no append, no versioned
filenames. -/
theorem c8_persist_overwrites (fs : String → Option String)
    (dir name c1 c2 : String) :
    writeFile (writeFile fs (dir ++ "/" ++ name) c1) (dir ++ "/" ++ name) c2
      (dir ++ "/" ++ name) = some c2 ∧
    (∀ p, p ≠ dir ++ "/" ++ name →
      writeFile (writeFile fs (dir ++ "/" ++ name) c1) (dir ++ "/" ++ name) c2 p = fs p) := by
  constructor
  · simp [writeFile]
  · intro p hp
    simp [writeFile, hp]

/-- Witness for C8 at the repository's plan artifact path: writing "A"
then "B" leaves "B" there and leaves the blog path untouched. -/
theorem c8_persist_overwrites_witness :
    writeFile (writeFile emptyFs ("marketing_outputs" ++ "/" ++ "marketing_plan.md") "A")
      ("marketing_outputs" ++ "/" ++ "marketing_plan.md") "B"
      ("marketing_outputs" ++ "/" ++ "marketing_plan.md") = some "B" ∧
    writeFile (writeFile emptyFs ("marketing_outputs" ++ "/" ++ "marketing_plan.md") "A")
      ("marketing_outputs" ++ "/" ++ "marketing_plan.md") "B"
      blogFilename = emptyFs blogFilename :=
  ⟨(c8_persist_overwrites emptyFs "marketing_outputs" "marketing_plan.md" "A" "B").1,
   (c8_persist_overwrites emptyFs "marketing_outputs" "marketing_plan.md" "A" "B").2
     blogFilename (by decide)⟩

/-- Extraction evaluated on the convenience envelope. -/
lemma extractFirstText_mkResp (s : String) : extractFirstText (mkResp s) = some s := rfl

/-- The two output paths are distinct. -/
lemma planFilename_ne_blogFilename : planFilename ≠ blogFilename := by decide

/-- C1: in sequential mode, if the planner endpoint answers every input
with an empty envelope (no output entries, or a first entry with no
parts), the workflow aborts with the planner empty-output error and the
writer stage (agent supervisor_agent) receives zero calls. -/
theorem c1_empty_plan_skips_writer
    (planner writer : String → Except String RunResult) (canWrite : String → Bool)
    (cc : Option Context) (sr : Option String)
    (fs0 : String → Option String) (dirs0 : List String)
    (hp : ∀ i, ∃ r, planner i = .ok r ∧ extractFirstText r = none) :
    (run_marketing_workflow planner writer canWrite cc sr ⟨fs0, dirs0, []⟩).1 =
      .error "No output received from marketing planner" ∧
    ((run_marketing_workflow planner writer canWrite cc sr ⟨fs0, dirs0, []⟩).2.calls.filter
      (fun call => call.1 == "supervisor_agent")) = [] := by
  obtain ⟨s, hs⟩ := create_planner_input_merged_ok cc sr
  obtain ⟨r, hr, hx⟩ := hp s
  constructor
  · simp [run_marketing_workflow, hs, hr, hx]
  · simp [run_marketing_workflow, hs, hr, hx]

/-- Witness for C1: a planner stub returning an empty envelope with a
functioning writer stub — the run errors and the call trace holds no
supervisor_agent call. -/
theorem c1_empty_plan_skips_writer_witness :
    (run_marketing_workflow emptyRespStub (constResp "BLOG_Y") alwaysWritable none none
      ⟨emptyFs, [], []⟩).1 = .error "No output received from marketing planner" ∧
    ((run_marketing_workflow emptyRespStub (constResp "BLOG_Y") alwaysWritable none none
      ⟨emptyFs, [], []⟩).2.calls.filter (fun call => call.1 == "supervisor_agent")) = [] :=
  c1_empty_plan_skips_writer emptyRespStub (constResp "BLOG_Y") alwaysWritable none none
    emptyFs [] (fun _ => ⟨⟨[]⟩, rfl, rfl⟩)

/-- C9: if the planner succeeds but the writer stage fails — either the
remote call raises or the envelope is empty — the run errors and the
filesystem is left exactly as it was: no file written, no directory
created; in particular the generated marketing plan is not persisted. -/
theorem c9_writer_failure_leaves_world
    (planner writer : String → Except String RunResult) (canWrite : String → Bool)
    (cc : Option Context) (sr : Option String) (w : WorldState)
    (hp : ∀ i, ∃ r t, planner i = .ok r ∧ extractFirstText r = some t)
    (hw : ∀ i, (∃ e, writer i = .error e) ∨
      (∃ r, writer i = .ok r ∧ extractFirstText r = none)) :
    (run_marketing_workflow planner writer canWrite cc sr w).1.isOk = false ∧
    (run_marketing_workflow planner writer canWrite cc sr w).2.fs = w.fs ∧
    (run_marketing_workflow planner writer canWrite cc sr w).2.dirs = w.dirs := by
  obtain ⟨s, hs⟩ := create_planner_input_merged_ok cc sr
  obtain ⟨r, t, hr, hx⟩ := hp s
  obtain ⟨s2, hs2⟩ := create_writer_input_merged_ok t cc
  rcases hw s2 with ⟨e, he⟩ | ⟨r2, hr2, hx2⟩
  · refine ⟨?_, ?_, ?_⟩ <;>
      simp [run_marketing_workflow, hs, hr, hx, hs2, he, Except.isOk, Except.toBool]
  · refine ⟨?_, ?_, ?_⟩ <;>
      simp [run_marketing_workflow, hs, hr, hx, hs2, hr2, hx2, Except.isOk, Except.toBool]

/-- Witness for C9: planner returns a plan, writer returns an empty
envelope — the run fails and the world's filesystem and directories are
untouched. -/
theorem c9_writer_failure_leaves_world_witness :
    (run_marketing_workflow (constResp "PLAN") emptyRespStub alwaysWritable none none
      emptyWorld).1.isOk = false ∧
    (run_marketing_workflow (constResp "PLAN") emptyRespStub alwaysWritable none none
      emptyWorld).2.fs = emptyWorld.fs ∧
    (run_marketing_workflow (constResp "PLAN") emptyRespStub alwaysWritable none none
      emptyWorld).2.dirs = emptyWorld.dirs :=
  c9_writer_failure_leaves_world (constResp "PLAN") emptyRespStub alwaysWritable none none
    emptyWorld (fun _ => ⟨mkResp "PLAN", "PLAN", rfl, rfl⟩)
    (fun _ => Or.inr ⟨⟨[]⟩, rfl, rfl⟩)

/-- C5: with a planner stub answering "PLAN_X" and a writer stub answering
"BLOG_Y" and a writable filesystem, the sequential workflow returns a
success result carrying both texts and the two artifact paths, and both
files hold the respective stage text preceded by the title line and a
header with the merged context's company_type and industry. -/
theorem c5_success_end_to_end
    (planner writer : String → Except String RunResult)
    (cc : Option Context) (sr : Option String)
    (fs0 : String → Option String) (dirs0 : List String) (calls0 : List (String × String))
    (hp : ∀ i, planner i = .ok (mkResp "PLAN_X"))
    (hw : ∀ i, writer i = .ok (mkResp "BLOG_Y")) :
    ∃ res ct ind,
      (run_marketing_workflow planner writer alwaysWritable cc sr ⟨fs0, dirs0, calls0⟩).1 =
        .ok res ∧
      res.marketing_plan = "PLAN_X" ∧ res.blog_content = "BLOG_Y" ∧
      res.status = "success" ∧
      res.files = [("marketing_plan", planFilename), ("blog_post", blogFilename)] ∧
      mergedContext cc "company_type" = some ct ∧
      mergedContext cc "industry" = some ind ∧
      (run_marketing_workflow planner writer alwaysWritable cc sr ⟨fs0, dirs0, calls0⟩).2.fs
        planFilename = some ("# Marketing Plan\n\n" ++ ("**Company:** " ++ pyFormat ct ++
          "\n**Industry:** " ++ pyFormat ind ++ "\n\n") ++ "PLAN_X") ∧
      (run_marketing_workflow planner writer alwaysWritable cc sr ⟨fs0, dirs0, calls0⟩).2.fs
        blogFilename = some ("# Blog Post\n\n" ++ ("**Company:** " ++ pyFormat ct ++
          "\n**Industry:** " ++ pyFormat ind ++ "\n\n") ++ "BLOG_Y") := by
  obtain ⟨s, hs⟩ := create_planner_input_merged_ok cc sr
  obtain ⟨s2, hs2⟩ := create_writer_input_merged_ok "PLAN_X" cc
  obtain ⟨ct, ind, hct, hind, hh⟩ := fileHeader_merged_ok cc
  refine ⟨{ marketing_plan := "PLAN_X", blog_content := "BLOG_Y",
            context := mergedContext cc, status := "success",
            files := [("marketing_plan", planFilename), ("blog_post", blogFilename)] },
          ct, ind, ?_, rfl, rfl, rfl, rfl, hct, hind, ?_, ?_⟩
  · simp [run_marketing_workflow, hs, hp, hw, hs2, hh, extractFirstText_mkResp, alwaysWritable]
  · simp [run_marketing_workflow, hs, hp, hw, hs2, hh, extractFirstText_mkResp, alwaysWritable,
      writeFile, planFilename_ne_blogFilename]
  · simp [run_marketing_workflow, hs, hp, hw, hs2, hh, extractFirstText_mkResp, alwaysWritable,
      writeFile]

/-- Witness for C5: the stubbed run evaluated from an empty world with the
default context — the success payload and both file contents are the
concrete strings. -/
theorem c5_success_end_to_end_witness :
    ∃ res ct ind,
      (run_marketing_workflow (constResp "PLAN_X") (constResp "BLOG_Y") alwaysWritable none none
        ⟨emptyFs, [], []⟩).1 = .ok res ∧
      res.marketing_plan = "PLAN_X" ∧ res.blog_content = "BLOG_Y" ∧
      res.status = "success" ∧
      res.files = [("marketing_plan", planFilename), ("blog_post", blogFilename)] ∧
      mergedContext none "company_type" = some ct ∧
      mergedContext none "industry" = some ind ∧
      (run_marketing_workflow (constResp "PLAN_X") (constResp "BLOG_Y") alwaysWritable none none
        ⟨emptyFs, [], []⟩).2.fs planFilename =
        some ("# Marketing Plan\n\n" ++ ("**Company:** " ++ pyFormat ct ++
          "\n**Industry:** " ++ pyFormat ind ++ "\n\n") ++ "PLAN_X") ∧
      (run_marketing_workflow (constResp "PLAN_X") (constResp "BLOG_Y") alwaysWritable none none
        ⟨emptyFs, [], []⟩).2.fs blogFilename =
        some ("# Blog Post\n\n" ++ ("**Company:** " ++ pyFormat ct ++
          "\n**Industry:** " ++ pyFormat ind ++ "\n\n") ++ "BLOG_Y") :=
  c5_success_end_to_end (constResp "PLAN_X") (constResp "BLOG_Y") none none
    emptyFs [] [] (fun _ => rfl) (fun _ => rfl)

/-- Python string falsiness: `"" or d` and `None or d` agree. -/
lemma pyOrDefault_empty (d : String) : pyOrDefault (some "") d = pyOrDefault none d := by
  simp [pyOrDefault]

/-- C10: at the public entry point, passing the empty string as
specific_request behaves exactly like omitting it: both prompt builders
substitute their fixed default request sentence in either case, so the
produced prompts are byte-identical, and the whole sequential run is
identical in the two cases. -/
theorem c10_empty_request_like_none :
    (∀ c : Context, create_planner_input c none = create_planner_input c (some "")) ∧
    (∀ c : Context, format_input_for_acp_orchestrator c none =
      format_input_for_acp_orchestrator c (some "")) ∧
    (∀ (planner writer : String → Except String RunResult) (canWrite : String → Bool)
      (cc : Option Context) (w : WorldState),
      run_marketing_workflow planner writer canWrite cc none w =
        run_marketing_workflow planner writer canWrite cc (some "") w) := by
  have hcpi : ∀ c : Context, create_planner_input c (some "") = create_planner_input c none := by
    intro c
    simp only [create_planner_input, pyOrDefault_empty]
  refine ⟨fun c => (hcpi c).symm, ?_, ?_⟩
  · intro c
    simp only [format_input_for_acp_orchestrator, pyOrDefault_empty]
  · intro planner writer canWrite cc w
    simp only [run_marketing_workflow, hcpi]

/-- Witness for C10 at the default context: the two planner prompts are
the same string. -/
theorem c10_empty_request_like_none_witness :
    create_planner_input DEFAULT_CONTEXT none = create_planner_input DEFAULT_CONTEXT (some "") :=
  c10_empty_request_like_none.1 DEFAULT_CONTEXT

/-- The required context fields, in the order the planner prompt's
f-string evaluates them. -/
def requiredFields : List String :=
  ["company_type", "industry", "target_audience", "value_proposition", "key_benefits"]

/-- The context fields the writer prompt actually consults, in f-string
evaluation order (src/chain.py lines 172-174). -/
def writerFields : List String := ["company_type", "industry", "target_audience"]

/-- A context with every default field except `value_proposition`. -/
def ctxNoVP : Context := fun k =>
  if k = "value_proposition" then none else DEFAULT_CONTEXT k

/-- C2 counterexample: a context in which the required field
`value_proposition` is absent, yet `create_writer_input` does not fail —
it never consults that field — refuting the claim that both prompt
builders fail whenever any of the five required fields is missing. -/
theorem c2_counterexample :
    ctxNoVP "value_proposition" = none ∧
    "value_proposition" ∈ requiredFields ∧
    ∃ s, create_writer_input "P" ctxNoVP = Except.ok s := by
  refine ⟨by decide, by decide, ⟨_, rfl⟩⟩

/-- C2 amended: when the first missing required field (in f-string
evaluation order) is `k`, `create_planner_input` fails with a KeyError
naming exactly `k`; `create_writer_input` does likewise when `k` is among
the three fields it consults (company_type, industry, target_audience),
and succeeds — without failing or substituting anything — when `k` is
`value_proposition` or `key_benefits`. -/
theorem c2_missing_required_field (c : Context) (r : Option String) (p k : String)
    (hk : k ∈ requiredFields) (hmiss : c k = none)
    (hfirst : ∀ k2 ∈ requiredFields,
      requiredFields.indexOf k2 < requiredFields.indexOf k → (c k2).isSome) :
    create_planner_input c r = .error k ∧
    (k ∈ writerFields → create_writer_input p c = .error k) ∧
    (k ∉ writerFields → ∃ s, create_writer_input p c = .ok s) := by
  simp only [requiredFields, List.mem_cons, List.not_mem_nil, or_false] at hk
  rcases hk with rfl | rfl | rfl | rfl | rfl
  · refine ⟨?_, fun _ => ?_, fun hnot => absurd (by decide) hnot⟩
    · simp [create_planner_input, dictGet, hmiss]
    · simp [create_writer_input, dictGet, hmiss]
  · obtain ⟨v1, h1⟩ := Option.isSome_iff_exists.mp
      (hfirst "company_type" (by decide) (by decide))
    refine ⟨?_, fun _ => ?_, fun hnot => absurd (by decide) hnot⟩
    · simp [create_planner_input, dictGet, h1, hmiss]
    · simp [create_writer_input, dictGet, h1, hmiss]
  · obtain ⟨v1, h1⟩ := Option.isSome_iff_exists.mp
      (hfirst "company_type" (by decide) (by decide))
    obtain ⟨v2, h2⟩ := Option.isSome_iff_exists.mp
      (hfirst "industry" (by decide) (by decide))
    refine ⟨?_, fun _ => ?_, fun hnot => absurd (by decide) hnot⟩
    · simp [create_planner_input, dictGet, h1, h2, hmiss]
    · simp [create_writer_input, dictGet, h1, h2, hmiss]
  · obtain ⟨v1, h1⟩ := Option.isSome_iff_exists.mp
      (hfirst "company_type" (by decide) (by decide))
    obtain ⟨v2, h2⟩ := Option.isSome_iff_exists.mp
      (hfirst "industry" (by decide) (by decide))
    obtain ⟨v3, h3⟩ := Option.isSome_iff_exists.mp
      (hfirst "target_audience" (by decide) (by decide))
    refine ⟨?_, fun hmem => absurd hmem (by decide), fun _ => ?_⟩
    · simp [create_planner_input, dictGet, h1, h2, h3, hmiss]
    · simp only [create_writer_input, dictGet, h1, h2, h3]
      exact ⟨_, rfl⟩
  · obtain ⟨v1, h1⟩ := Option.isSome_iff_exists.mp
      (hfirst "company_type" (by decide) (by decide))
    obtain ⟨v2, h2⟩ := Option.isSome_iff_exists.mp
      (hfirst "industry" (by decide) (by decide))
    obtain ⟨v3, h3⟩ := Option.isSome_iff_exists.mp
      (hfirst "target_audience" (by decide) (by decide))
    obtain ⟨v4, h4⟩ := Option.isSome_iff_exists.mp
      (hfirst "value_proposition" (by decide) (by decide))
    refine ⟨?_, fun hmem => absurd hmem (by decide), fun _ => ?_⟩
    · simp [create_planner_input, dictGet, h1, h2, h3, h4, hmiss]
    · simp only [create_writer_input, dictGet, h1, h2, h3]
      exact ⟨_, rfl⟩

/-- Witness for amended C2 at a context missing only value_proposition:
the planner builder raises KeyError naming it and the writer builder
succeeds. -/
theorem c2_missing_required_field_witness :
    create_planner_input ctxNoVP none = .error "value_proposition" ∧
    ("value_proposition" ∈ writerFields →
      create_writer_input "P" ctxNoVP = .error "value_proposition") ∧
    ("value_proposition" ∉ writerFields → ∃ s, create_writer_input "P" ctxNoVP = .ok s) :=
  c2_missing_required_field ctxNoVP none "P" "value_proposition" (by decide) (by decide)
    (by
      intro k2 hk2 hlt
      simp only [requiredFields, List.mem_cons, List.not_mem_nil, or_false] at hk2
      rcases hk2 with rfl | rfl | rfl | rfl | rfl
      · decide
      · decide
      · decide
      · exact absurd hlt (by decide)
      · exact absurd hlt (by decide))

/-- C3 counterexample: with stubs for which both generation stages
succeed ("PLAN_X", "BLOG_Y") but no path is writable, the sequential run
raises the persistence error — the generated texts are not returned to
the caller — while the identical run with a writable filesystem does
return them, showing generation itself succeeded. -/
theorem c3_counterexample :
    (run_marketing_workflow (constResp "PLAN_X") (constResp "BLOG_Y") neverWritable none none
      emptyWorld).1 = .error ("PermissionError: " ++ planFilename) ∧
    (run_marketing_workflow (constResp "PLAN_X") (constResp "BLOG_Y") alwaysWritable none none
      emptyWorld).1.map (fun res => (res.marketing_plan, res.blog_content, res.status)) =
      .ok ("PLAN_X", "BLOG_Y", "success") := by
  constructor
  · rfl
  · rfl

/-- C3 amended: a persistence failure after both generation stages have
succeeded propagates to the caller as the raised error — the workflow
returns no result value, so the generated marketing_plan and blog_content
are not returned; both stages were nevertheless invoked (two calls are on
the trace). -/
theorem c3_persistence_failure_discards_result
    (planner writer : String → Except String RunResult)
    (cc : Option Context) (sr : Option String) (w : WorldState)
    (hp : ∀ i, planner i = .ok (mkResp "PLAN_X"))
    (hw : ∀ i, writer i = .ok (mkResp "BLOG_Y")) :
    (run_marketing_workflow planner writer neverWritable cc sr w).1 =
      .error ("PermissionError: " ++ planFilename) ∧
    (run_marketing_workflow planner writer neverWritable cc sr w).2.calls.length =
      w.calls.length + 2 := by
  obtain ⟨s, hs⟩ := create_planner_input_merged_ok cc sr
  obtain ⟨s2, hs2⟩ := create_writer_input_merged_ok "PLAN_X" cc
  obtain ⟨ct, ind, hct, hind, hh⟩ := fileHeader_merged_ok cc
  constructor
  · simp [run_marketing_workflow, hs, hp, hw, hs2, hh, extractFirstText_mkResp, neverWritable]
  · simp [run_marketing_workflow, hs, hp, hw, hs2, hh, extractFirstText_mkResp, neverWritable]

/-- Witness for amended C3: the concrete stubbed run from an empty world. -/
theorem c3_persistence_failure_witness :
    (run_marketing_workflow (constResp "PLAN_X") (constResp "BLOG_Y") neverWritable none none
      emptyWorld).1 = .error ("PermissionError: " ++ planFilename) ∧
    (run_marketing_workflow (constResp "PLAN_X") (constResp "BLOG_Y") neverWritable none none
      emptyWorld).2.calls.length = emptyWorld.calls.length + 2 :=
  c3_persistence_failure_discards_result (constResp "PLAN_X") (constResp "BLOG_Y") none none
    emptyWorld (fun _ => rfl) (fun _ => rfl)

/-- The opaque discovery-mode calling agent as a stub returning a fixed
final text. -/
def constAgent (s : String) : String → Except String String := fun _ => .ok s

/-- C4: the discovery-mode workflow of src/acp_crew.py persists the
calling agent's final text to blog_post.md but returns `None` — it has no
return statement — so no WorkflowResult carrying marketing_plan and
blog_content reaches the caller, contradicting its own `-> dict`
annotation and docstring. -/
theorem c4_discovery_returns_none :
    (acp_run_marketing_workflow (constAgent "FINAL_TEXT") alwaysWritable none none
      emptyWorld).1 = .ok none ∧
    (acp_run_marketing_workflow (constAgent "FINAL_TEXT") alwaysWritable none none
      emptyWorld).2.fs blogFilename =
      some (("**Company:** " ++ "AI startup" ++ "\n**Industry:** " ++
        "Marketing Technology" ++ "\n\n") ++ "FINAL_TEXT") := by
  constructor
  · rfl
  · rfl
